import Mathlib

/-!
Verification of the session-credential verification and state-synchronization
engine of the reflex-clerk component library.

The embedding follows the source files
`custom_components/reflex_clerk/lib/clerk_provider.py` (class `ClerkState`)
and `custom_components/reflex_clerk/clerk_client/clerk_client.py`
(class `ClerkAPIClient`).  Python in-place mutation of `self` and of the
class-level configuration is modelled by explicit state passing; a Python
exception that escapes a method is modelled by an `exn` field carrying the
exception value together with the state as mutated up to the raise point;
outbound HTTP calls are modelled by an oracle (`ClerkBackend`) plus a trace
of the calls that were issued.
-/

namespace ReflexClerk

/-- One JSON Web Key, after `clerk_response_models.Key`:
fields `kty`, `use`, `kid`, `n`, `e`, all strings. -/
structure Key where
  kty : String
  use : String
  kid : String
  n : String
  e : String
deriving DecidableEq, Repr

/-- After `clerk_response_models.JWKSResponse`: the document returned by
`ClerkAPIClient.get_jwks`, a record with a single field `keys`. -/
structure JWKSResponse where
  keys : List Key
deriving DecidableEq, Repr

/-- After `clerk_response_models.User`.  The core only reads the record as a
whole and stores it; its many profile fields are pass-through data, modelled
here by the identifier plus an opaque field list. -/
structure User where
  id : String
  fields : List (String × String)
deriving DecidableEq, Repr

/-- Decoded JWT payload as returned by `authlib.jose.jwt.decode`
(`JWTClaims`).  `sub` models `decoded.get('sub')` (absent key gives `none`);
`exp` and `iat` are the registered time claims; `extra` is the opaque rest of
the claims mapping. -/
structure JWTClaims where
  sub : Option String
  exp : Nat
  iat : Nat
  extra : List (String × String)
deriving DecidableEq, Repr

/-- A compact-serialized session token, abstracted to exactly what the
verification path in the source observes of it: whether it parses as a JWS
at all (`wellFormed`), the key id named in its protected header (`kid`), the
RSA public material that its signature verifies against (`sigKeyN`,
`sigKeyE`), and the claims payload it carries. -/
structure SessionToken where
  wellFormed : Bool
  kid : String
  sigKeyN : String
  sigKeyE : String
  payload : JWTClaims
deriving DecidableEq, Repr

/-- The `authlib.jose.errors.JoseError` subclasses that
`authlib.jose.jwt.decode` itself can raise on the path used by the source:
`DecodeError` for a malformed/unparseable token and `BadSignatureError` for
a signature that does not verify under the selected key. -/
inductive JoseErr
  | decodeError
  | badSignature
deriving DecidableEq, Repr

/-- Outcome of `authlib.jose.jwt.decode(token, keys)`.  `keySetValueError`
models the `ValueError` that authlib's key-set lookup raises when no key in
the set matches the token's `kid`; it is not a `JoseError`. -/
inductive DecodeOutcome
  | ok (c : JWTClaims)
  | joseError (e : JoseErr)
  | keySetValueError
deriving DecidableEq, Repr

/-- Model of the library call `jwt.decode(token, keys_document)` at
clerk_provider.py:185.  authlib parses the compact serialization, selects
the key whose `kid` matches the token header, checks the signature, and
returns the decoded claims.  It does not read a clock and does not check
`exp` or any other registered claim: that check lives in
`JWTClaims.validate()`, which the source never calls, so the payload is
returned verbatim whatever its `exp` value. -/
def jwtDecode (keys : List Key) (t : SessionToken) : DecodeOutcome :=
  if t.wellFormed = false then .joseError .decodeError
  else
    match keys.find? (fun k => k.kid == t.kid) with
    | none => .keySetValueError
    | some k =>
      if k.n = t.sigKeyN ∧ k.e = t.sigKeyE then .ok t.payload
      else .joseError .badSignature

/-- Per-session state: the five mutable instance fields of `ClerkState`
(clerk_provider.py:60-110). -/
structure ClerkSessionState where
  is_signed_in : Bool
  auth_error : Option JoseErr
  claims : Option JWTClaims
  user_id : Option String
  user : Option User
deriving DecidableEq, Repr

/-- The default field values of a freshly created `ClerkState`. -/
def ClerkSessionState.initial : ClerkSessionState :=
  ⟨false, none, none, none, none⟩

/-- Class-level configuration of `ClerkState` (clerk_provider.py:112-116)
together with the environment it lazily reads.  `jwt_public_keys_cache` is
the class attribute `_jwt_public_keys`, `secret_key_cache` is `_secret_key`,
`env_secret_key` and `env_jwt_public_keys` model the `CLERK_SECRET_KEY` and
`CLERK_JWT_PUBLIC_KEYS` environment variables (the latter already parsed),
and `fetch_user_flag` is `_fetch_user`.  The cached `_clerk_api_client`
object carries no observable state beyond the secret key that determines it
and its construction cannot fail, so it is not tracked separately. -/
structure ClerkConfig where
  jwt_public_keys_cache : List Key
  secret_key_cache : Option String
  env_secret_key : Option String
  env_jwt_public_keys : Option (List Key)
  fetch_user_flag : Bool
deriving DecidableEq, Repr

/-- Python truthiness of an optional string: `None` and the empty string are
falsy. -/
def optStrTruthy : Option String → Bool
  | none => false
  | some s => !s.isEmpty

/-- The classmethod property `ClerkState.secret_key`
(clerk_provider.py:119-126): if `_secret_key` is `None` it is filled from
the `CLERK_SECRET_KEY` environment variable when present, then returned.
Returns the value together with the updated class state. -/
def ClerkConfig.secret_key (cfg : ClerkConfig) : Option String × ClerkConfig :=
  match cfg.secret_key_cache with
  | some s => (some s, cfg)
  | none =>
    match cfg.env_secret_key with
    | some s => (some s, { cfg with secret_key_cache := some s })
    | none => (none, cfg)

/-- The secret key that `ClerkConfig.secret_key` resolves to, as a pure
value. -/
def ClerkConfig.resolved_secret (cfg : ClerkConfig) : Option String :=
  match cfg.secret_key_cache with
  | some s => some s
  | none => cfg.env_secret_key

/-- A call issued to the Clerk REST API. -/
inductive ExtCall
  | getJwks
  | getUser (user_id : String)
deriving DecidableEq, Repr

/-- A transport-level failure of a REST call, after
`ClerkAPIClient._handle_response` (clerk_client.py:17-24): a status of 400
or above makes `response.raise_for_status()` raise `requests.HTTPError`;
an unparseable body raises `ValueError`. -/
inductive DirectoryFailure
  | httpStatus (code : Nat)
  | malformedBody
deriving DecidableEq, Repr

/-- A Python exception that escapes one of the modelled methods uncaught:
the `ValueError` from authlib's key-set lookup, or a `DirectoryFailure`
raised by `_handle_response`.  Neither is a `JoseError`, so neither is
caught by the handler in `set_clerk_session`. -/
inductive PyError
  | keySetValueError
  | dir (e : DirectoryFailure)
deriving DecidableEq, Repr

/-- Oracle for the two REST calls the core issues: what `get_jwks()` and
`get_user(user_id)` would return (or raise). -/
structure ClerkBackend where
  jwks : Except DirectoryFailure JWKSResponse
  users : String → Except DirectoryFailure User

/-- The classmethod property `ClerkState.jwt_public_keys`
(clerk_provider.py:129-137).  If the cached `_jwt_public_keys` list is
falsy (empty), it is first filled from the `CLERK_JWT_PUBLIC_KEYS`
environment variable when that is set, and then — by a second independent
`if`, not an `elif` — overwritten with the result of
`get_jwks().dict()['keys']` whenever the secret key is truthy (the
constructed `clerk_api_client` object is always truthy).  Returns the
resulting key list (or the escaping transport failure), the updated class
state, and the REST calls issued. -/
def ClerkConfig.jwt_public_keys (cfg : ClerkConfig) (b : ClerkBackend) :
    Except DirectoryFailure (List Key) × ClerkConfig × List ExtCall :=
  if cfg.jwt_public_keys_cache = [] then
    let cfg1 : ClerkConfig :=
      match cfg.env_jwt_public_keys with
      | some ks => { cfg with jwt_public_keys_cache := ks }
      | none => cfg
    let (sk, cfg2) := cfg1.secret_key
    if optStrTruthy sk then
      match b.jwks with
      | .ok r => (.ok r.keys, { cfg2 with jwt_public_keys_cache := r.keys }, [.getJwks])
      | .error e => (.error e, cfg2, [.getJwks])
    else
      (.ok cfg2.jwt_public_keys_cache, cfg2, [])
  else
    (.ok cfg.jwt_public_keys_cache, cfg, [])

/-- Result of running one `ClerkState` event handler: the escaped exception
if one propagated out of the handler (`none` when it returned normally),
the per-session state as mutated up to that point, the class-level state,
and the REST calls issued. -/
structure SessionResult where
  exn : Option PyError
  state : ClerkSessionState
  cfg : ClerkConfig
  calls : List ExtCall
deriving DecidableEq, Repr

/-- Result of `ClerkState.fetch_user`, which touches no class-level state. -/
structure FetchResult where
  exn : Option PyError
  state : ClerkSessionState
  calls : List ExtCall
deriving DecidableEq, Repr

/-- `ClerkState.fetch_user` (clerk_provider.py:221-230): when `self.user_id`
is truthy (not `None`, not empty), calls `get_user(user_id)` and stores the
result into `self.user`; a failure of the call escapes uncaught.  When
`user_id` is falsy the method does nothing. -/
def fetch_user (b : ClerkBackend) (s : ClerkSessionState) : FetchResult :=
  match s.user_id with
  | none => ⟨none, s, []⟩
  | some uid =>
    if uid.isEmpty then ⟨none, s, []⟩
    else
      match b.users uid with
      | .ok u => ⟨none, { s with user := some u }, [.getUser uid]⟩
      | .error e => ⟨some (.dir e), s, [.getUser uid]⟩

/-- `ClerkState.set_clerk_session` (clerk_provider.py:170-195), the
token-presented handler.  If the raw class attribute `_jwt_public_keys` is
falsy, the method prints a notice and returns with nothing changed.
Otherwise it decodes the token against the `jwt_public_keys` property
(which, the cache being non-empty, returns it unchanged); on success it
sets `is_signed_in`, `claims` and `user_id := decoded.get('sub')` and, when
`_fetch_user` is set, runs `fetch_user`; a `JoseError` from the decode is
caught and stored into `auth_error`; any other exception (authlib's
`ValueError` on an unknown `kid`, or a `DirectoryFailure` from
`fetch_user`) escapes the handler with the mutations made so far kept. -/
def set_clerk_session (cfg : ClerkConfig) (b : ClerkBackend)
    (s : ClerkSessionState) (token : SessionToken) : SessionResult :=
  if cfg.jwt_public_keys_cache = [] then
    ⟨none, s, cfg, []⟩
  else
    let (keysRes, cfg1, calls1) := cfg.jwt_public_keys b
    match keysRes with
    | .error e => ⟨some (.dir e), s, cfg1, calls1⟩
    | .ok keys =>
      match jwtDecode keys token with
      | .ok decoded =>
        let s1 : ClerkSessionState :=
          { s with is_signed_in := true, claims := some decoded, user_id := decoded.sub }
        if cfg1.fetch_user_flag then
          let fr := fetch_user b s1
          ⟨fr.exn, fr.state, cfg1, calls1 ++ fr.calls⟩
        else
          ⟨none, s1, cfg1, calls1⟩
      | .joseError e => ⟨none, { s with auth_error := some e }, cfg1, calls1⟩
      | .keySetValueError => ⟨some .keySetValueError, s, cfg1, calls1⟩

/-- `ClerkState.clear_clerk_session` (clerk_provider.py:197-211), the
token-withdrawn handler: resets `is_signed_in`, `claims` and `auth_error`;
`user` and `user_id` are left untouched. -/
def clear_clerk_session (s : ClerkSessionState) : ClerkSessionState :=
  { s with is_signed_in := false, claims := none, auth_error := none }

/-- `ClerkState.clear_clerk_auth_error` (clerk_provider.py:213-219). -/
def clear_clerk_auth_error (s : ClerkSessionState) : ClerkSessionState :=
  { s with auth_error := none }

/-! Concrete fixtures for evaluating the model. -/

/-- A signing key with id K1. -/
def k1 : Key := ⟨"RSA", "sig", "K1", "modulus1", "AQAB"⟩

/-- A different signing key with id K2. -/
def k2 : Key := ⟨"RSA", "sig", "K2", "modulus2", "AQAB"⟩

/-- Configuration whose key cache holds k1, with user fetching disabled. -/
def cfg1 : ClerkConfig := ⟨[k1], some "sk_test", none, none, false⟩

/-- Configuration whose key cache holds k1, with user fetching enabled. -/
def cfgFetch : ClerkConfig := ⟨[k1], some "sk_test", none, none, true⟩

/-- Configuration with an empty key cache and no key sources. -/
def cfgEmpty : ClerkConfig := ⟨[], none, none, none, true⟩

/-- Configuration with an empty key cache, a static key list from the
environment, and a secret key for the remote source. -/
def cfgBoth : ClerkConfig := ⟨[], some "sk_test", none, some [k1], true⟩

/-- Backend on which every REST call fails. -/
def emptyBackend : ClerkBackend :=
  ⟨.error (.httpStatus 500), fun _ => .error (.httpStatus 404)⟩

/-- Backend whose JWKS endpoint serves the set with only k2 and whose user
endpoint fails. -/
def backendK2 : ClerkBackend :=
  ⟨.ok ⟨[k2]⟩, fun _ => .error (.httpStatus 404)⟩

/-- A structurally valid token signed with k1 whose `exp` claim is the given
value. -/
def expiredTokenAt (e : Nat) : SessionToken :=
  ⟨true, "K1", "modulus1", "AQAB", ⟨some "user_1", e, 0, []⟩⟩

/-- A structurally valid token signed with k1 with a far-future `exp`. -/
def validToken : SessionToken :=
  ⟨true, "K1", "modulus1", "AQAB", ⟨some "user_1", 9999999999, 1700000000, []⟩⟩

/-- A token that does not parse as a JWS. -/
def malformedToken : SessionToken :=
  ⟨false, "K1", "modulus1", "AQAB", ⟨none, 0, 0, []⟩⟩

/-- A session that is already signed in from a previous token. -/
def signedInState : ClerkSessionState :=
  ⟨true, none, some ⟨some "user_0", 5, 1, []⟩, some "user_0", none⟩

/-- A signed-out session with a previously recorded auth error. -/
def erroredState : ClerkSessionState :=
  ⟨false, some .decodeError, none, none, none⟩

/-! Helper lemmas shared by the claim theorems. -/

/-- Characterization of the key list produced by a first population of the
`jwt_public_keys` property (empty cache): a truthy resolved secret makes the
remote fetch decide the result, otherwise the environment list (or the empty
list) is returned. -/
theorem jwt_public_keys_fresh (cfg : ClerkConfig) (b : ClerkBackend)
    (h : cfg.jwt_public_keys_cache = []) :
    (cfg.jwt_public_keys b).1 =
      if optStrTruthy cfg.resolved_secret then
        (match b.jwks with
         | .ok r => .ok r.keys
         | .error e => .error e)
      else
        .ok (cfg.env_jwt_public_keys.getD []) := by
  obtain ⟨kc, skc, esk, ejk, f⟩ := cfg
  simp only at h
  subst h
  unfold ClerkConfig.jwt_public_keys ClerkConfig.secret_key
    ClerkConfig.resolved_secret
  cases skc <;> cases esk <;> cases ejk <;> cases b.jwks <;>
    simp [optStrTruthy] <;> split <;> rfl

/-- With a non-empty cache the `jwt_public_keys` property returns the cache
unchanged and issues no REST call. -/
theorem jwt_public_keys_cached (cfg : ClerkConfig) (b : ClerkBackend)
    (h : cfg.jwt_public_keys_cache ≠ []) :
    cfg.jwt_public_keys b = (.ok cfg.jwt_public_keys_cache, cfg, []) := by
  unfold ClerkConfig.jwt_public_keys
  simp [h]

/-- With a non-empty cache, `set_clerk_session` reduces to a case split on
the decode outcome over the cached keys. -/
theorem set_clerk_session_cached (cfg : ClerkConfig) (b : ClerkBackend)
    (s : ClerkSessionState) (t : SessionToken)
    (h : cfg.jwt_public_keys_cache ≠ []) :
    set_clerk_session cfg b s t =
      match jwtDecode cfg.jwt_public_keys_cache t with
      | .ok decoded =>
        let s1 : ClerkSessionState :=
          { s with is_signed_in := true, claims := some decoded,
                   user_id := decoded.sub }
        if cfg.fetch_user_flag then
          let fr := fetch_user b s1
          ⟨fr.exn, fr.state, cfg, fr.calls⟩
        else
          ⟨none, s1, cfg, []⟩
      | .joseError e => ⟨none, { s with auth_error := some e }, cfg, []⟩
      | .keySetValueError => ⟨some .keySetValueError, s, cfg, []⟩ := by
  unfold set_clerk_session
  rw [jwt_public_keys_cached cfg b h]
  simp [h]

/-- `fetch_user` only ever writes the `user` field. -/
theorem fetch_user_frame (b : ClerkBackend) (s : ClerkSessionState) :
    (fetch_user b s).state.is_signed_in = s.is_signed_in
    ∧ (fetch_user b s).state.claims = s.claims
    ∧ (fetch_user b s).state.user_id = s.user_id
    ∧ (fetch_user b s).state.auth_error = s.auth_error := by
  unfold fetch_user
  cases h : s.user_id with
  | none => simp [h]
  | some uid =>
    cases hu : uid.isEmpty with
    | true => simp [h, hu]
    | false => cases hb : b.users uid <;> simp [h, hu, hb]

/-! Claim theorems. -/

/-- Claim C1: the spec says a token whose `exp` claim is in the past must be
rejected with an Expired error and leave the session signed out.  The code
never calls `claims.validate()`, so `exp` is never checked: a token whose
`exp` is 0 (in the past at any verification time) and whose signature is
valid is accepted as signed in, with no error recorded and its stale claims
stored. -/
theorem C1_expired_token_accepted :
    (set_clerk_session cfg1 emptyBackend ClerkSessionState.initial
        (expiredTokenAt 0)).state.is_signed_in = true
    ∧ (set_clerk_session cfg1 emptyBackend ClerkSessionState.initial
        (expiredTokenAt 0)).state.auth_error = none
    ∧ (set_clerk_session cfg1 emptyBackend ClerkSessionState.initial
        (expiredTokenAt 0)).state.claims = some ⟨some "user_1", 0, 0, []⟩ := by
  decide

/-- Claim C2 counterexample: starting from a signed-in session, presenting a
token that fails verification leaves `is_signed_in = true` and the old
claims in place, contrary to the claimed reset to `false` and `None`. -/
theorem C2_counterexample :
    (set_clerk_session cfg1 emptyBackend signedInState
        malformedToken).state.is_signed_in = true
    ∧ (set_clerk_session cfg1 emptyBackend signedInState
        malformedToken).state.claims = some ⟨some "user_0", 5, 1, []⟩ := by
  decide

/-- Claim C2 amended: when verification fails with a JoseError, the handler
stores the error into `auth_error` and leaves every other field unchanged,
so `is_signed_in` and `claims` keep their pre-call values (false and `None`
only when starting from the freshly initialized state). -/
theorem C2_jose_failure_only_records_error (cfg : ClerkConfig)
    (b : ClerkBackend) (s : ClerkSessionState) (t : SessionToken) (e : JoseErr)
    (hk : cfg.jwt_public_keys_cache ≠ [])
    (hd : jwtDecode cfg.jwt_public_keys_cache t = .joseError e) :
    set_clerk_session cfg b s t =
      ⟨none, { s with auth_error := some e }, cfg, []⟩ := by
  rw [set_clerk_session_cached cfg b s t hk, hd]

/-- Claim C2 amended, witnessed at a concrete input. -/
theorem C2_jose_failure_only_records_error_witness :
    set_clerk_session cfg1 emptyBackend ClerkSessionState.initial
        malformedToken =
      ⟨none, { ClerkSessionState.initial with auth_error := some .decodeError },
       cfg1, []⟩ :=
  C2_jose_failure_only_records_error cfg1 emptyBackend
    ClerkSessionState.initial malformedToken .decodeError
    (by decide) (by decide)

/-- Claim C3 counterexample: with an empty key set the handler records no
error at all — `auth_error` stays `None` instead of becoming
`NoKeysConfigured` as claimed. -/
theorem C3_counterexample :
    (set_clerk_session cfgEmpty emptyBackend ClerkSessionState.initial
        malformedToken).state.auth_error = none
    ∧ (set_clerk_session cfgEmpty emptyBackend ClerkSessionState.initial
        malformedToken).state.is_signed_in = false := by
  decide

/-- Claim C3 amended: with an empty key set the handler never produces a
sign-in (`is_signed_in` keeps its pre-call value) and records no error
(`auth_error` keeps its pre-call value); it only logs and returns. -/
theorem C3_empty_keys_no_error_recorded (cfg : ClerkConfig) (b : ClerkBackend)
    (s : ClerkSessionState) (t : SessionToken)
    (h : cfg.jwt_public_keys_cache = []) :
    (set_clerk_session cfg b s t).state.is_signed_in = s.is_signed_in
    ∧ (set_clerk_session cfg b s t).state.auth_error = s.auth_error := by
  unfold set_clerk_session
  simp [h]

/-- Claim C3 amended, witnessed at a concrete input. -/
theorem C3_empty_keys_no_error_recorded_witness :
    (set_clerk_session cfgEmpty emptyBackend signedInState
        validToken).state.is_signed_in = signedInState.is_signed_in
    ∧ (set_clerk_session cfgEmpty emptyBackend signedInState
        validToken).state.auth_error = signedInState.auth_error :=
  C3_empty_keys_no_error_recorded cfgEmpty emptyBackend signedInState
    validToken (by decide)

/-- Claim C7: withdrawing the token twice equals withdrawing it once, the
final state has `is_signed_in = false`, `claims = None`,
`auth_error = None`, and `user` and `user_id` are exactly as before. -/
theorem C7_withdraw_idempotent (s : ClerkSessionState) :
    clear_clerk_session (clear_clerk_session s) = clear_clerk_session s
    ∧ (clear_clerk_session s).is_signed_in = false
    ∧ (clear_clerk_session s).claims = none
    ∧ (clear_clerk_session s).auth_error = none
    ∧ (clear_clerk_session s).user = s.user
    ∧ (clear_clerk_session s).user_id = s.user_id :=
  ⟨rfl, rfl, rfl, rfl, rfl, rfl⟩

/-- Claim C9: with an empty key cache, `set_clerk_session` is a complete
no-op: the session state, the class state, the exception slot and the call
trace are all as if nothing ran. -/
theorem C9_empty_keys_frame (cfg : ClerkConfig) (b : ClerkBackend)
    (s : ClerkSessionState) (t : SessionToken)
    (h : cfg.jwt_public_keys_cache = []) :
    set_clerk_session cfg b s t = ⟨none, s, cfg, []⟩ := by
  unfold set_clerk_session
  simp [h]

/-- Claim C9, witnessed at a concrete input. -/
theorem C9_empty_keys_frame_witness :
    set_clerk_session cfgEmpty backendK2 signedInState validToken =
      ⟨none, signedInState, cfgEmpty, []⟩ :=
  C9_empty_keys_frame cfgEmpty backendK2 signedInState validToken (by decide)

/-- Claim C10: `fetch_user` with a `None` or empty `user_id` issues no REST
call and leaves the state unchanged. -/
theorem C10_fetch_user_noop (b : ClerkBackend) (s : ClerkSessionState)
    (h : s.user_id = none ∨ s.user_id = some "") :
    fetch_user b s = ⟨none, s, []⟩ := by
  unfold fetch_user
  rcases h with h | h
  · simp [h]
  · rw [h]
    rfl

/-- Claim C10, witnessed at a concrete input. -/
theorem C10_fetch_user_noop_witness :
    fetch_user emptyBackend ClerkSessionState.initial =
      ⟨none, ClerkSessionState.initial, []⟩ :=
  C10_fetch_user_noop emptyBackend ClerkSessionState.initial (Or.inl rfl)

/-- Claim C4 counterexample: a failing user fetch after a successful
verification is not stored as data — it escapes the handler as an uncaught
exception (`exn` is set), contrary to the claimed capture-as-data policy. -/
theorem C4_counterexample :
    (set_clerk_session cfgFetch emptyBackend ClerkSessionState.initial
        validToken).exn = some (.dir (.httpStatus 404)) := by
  decide

/-- Claim C4 amended: when the user fetch fails after a successful
verification, the session keeps `is_signed_in = true`, `user` keeps its
pre-call value (empty stays empty) and `auth_error` is not set, but the
directory failure propagates out of the handler as an uncaught exception
instead of being stored in the state. -/
theorem C4_fetch_failure_propagates (cfg : ClerkConfig) (b : ClerkBackend)
    (s : ClerkSessionState) (t : SessionToken) (c : JWTClaims) (uid : String)
    (err : DirectoryFailure)
    (hk : cfg.jwt_public_keys_cache ≠ [])
    (hd : jwtDecode cfg.jwt_public_keys_cache t = .ok c)
    (hf : cfg.fetch_user_flag = true)
    (hsub : c.sub = some uid)
    (hne : uid.isEmpty = false)
    (hu : b.users uid = .error err) :
    set_clerk_session cfg b s t =
      ⟨some (.dir err),
       { s with is_signed_in := true, claims := some c, user_id := some uid },
       cfg, [.getUser uid]⟩ := by
  rw [set_clerk_session_cached cfg b s t hk, hd]
  simp [hf, fetch_user, hsub, hne, hu]

/-- Claim C4 amended, witnessed at a concrete input. -/
theorem C4_fetch_failure_propagates_witness :
    set_clerk_session cfgFetch emptyBackend ClerkSessionState.initial
        validToken =
      ⟨some (.dir (.httpStatus 404)),
       { ClerkSessionState.initial with
           is_signed_in := true,
           claims := some ⟨some "user_1", 9999999999, 1700000000, []⟩,
           user_id := some "user_1" },
       cfgFetch, [.getUser "user_1"]⟩ :=
  C4_fetch_failure_propagates cfgFetch emptyBackend ClerkSessionState.initial
    validToken ⟨some "user_1", 9999999999, 1700000000, []⟩ "user_1"
    (.httpStatus 404) (by decide) (by decide) (by decide) (by decide)
    (by decide) rfl

/-- Claim C5 counterexample: with the key cache empty, a static key list
configured in the environment and a directory credential present, first
population yields the remotely fetched set, not the static list: the second
`if` in the property overwrites the environment keys. -/
theorem C5_counterexample :
    (cfgBoth.jwt_public_keys backendK2).1 = .ok [k2]
    ∧ cfgBoth.env_jwt_public_keys = some [k1]
    ∧ ¬ ([k2] = [k1]) :=
  ⟨rfl, rfl, by decide⟩

/-- Claim C5 amended: on first population the remote fetch has priority —
whenever the resolved directory credential is truthy the resulting key set
is the remotely served one (overwriting any static list); the static list
from the environment is the result only when no truthy credential is
configured. -/
theorem C5_remote_overrides_static (cfg : ClerkConfig) (b : ClerkBackend)
    (r : JWKSResponse)
    (h : cfg.jwt_public_keys_cache = []) :
    (optStrTruthy cfg.resolved_secret = true → b.jwks = .ok r →
      (cfg.jwt_public_keys b).1 = .ok r.keys)
    ∧ (optStrTruthy cfg.resolved_secret = false →
      (cfg.jwt_public_keys b).1 = .ok (cfg.env_jwt_public_keys.getD [])) := by
  constructor
  · intro hs hj
    rw [jwt_public_keys_fresh cfg b h]
    simp [hs, hj]
  · intro hs
    rw [jwt_public_keys_fresh cfg b h]
    simp [hs]

/-- Claim C5 amended, witnessed at a concrete input. -/
theorem C5_remote_overrides_static_witness :
    (cfgBoth.jwt_public_keys backendK2).1 = .ok [k2] :=
  (C5_remote_overrides_static cfgBoth backendK2 ⟨[k2]⟩ (by decide)).1
    (by decide) rfl

/-- Claim C6 counterexample: a successful verification starting from a
session with a previously recorded auth error leaves that error in place —
`auth_error` is not cleared to `None` as claimed. -/
theorem C6_counterexample :
    (set_clerk_session cfg1 emptyBackend erroredState
        validToken).state.is_signed_in = true
    ∧ (set_clerk_session cfg1 emptyBackend erroredState
        validToken).state.auth_error = some .decodeError := by
  decide

/-- Claim C6 amended: successful verification sets `is_signed_in = true`,
stores the decoded claims, sets `user_id` to the token's `sub` claim, and
leaves `auth_error` unchanged (it is never cleared on success). -/
theorem C6_success_keeps_auth_error (cfg : ClerkConfig) (b : ClerkBackend)
    (s : ClerkSessionState) (t : SessionToken) (c : JWTClaims)
    (hk : cfg.jwt_public_keys_cache ≠ [])
    (hd : jwtDecode cfg.jwt_public_keys_cache t = .ok c) :
    (set_clerk_session cfg b s t).state.is_signed_in = true
    ∧ (set_clerk_session cfg b s t).state.claims = some c
    ∧ (set_clerk_session cfg b s t).state.user_id = c.sub
    ∧ (set_clerk_session cfg b s t).state.auth_error = s.auth_error := by
  rw [set_clerk_session_cached cfg b s t hk, hd]
  cases hf : cfg.fetch_user_flag with
  | false => simp [hf]
  | true =>
    have h1 := fetch_user_frame b
      { s with is_signed_in := true, claims := some c, user_id := c.sub }
    simp only [hf, if_true]
    exact ⟨h1.1, h1.2.1, h1.2.2.1, h1.2.2.2⟩

/-- Claim C6 amended, witnessed at a concrete input. -/
theorem C6_success_keeps_auth_error_witness :
    (set_clerk_session cfg1 emptyBackend erroredState
        validToken).state.is_signed_in = true
    ∧ (set_clerk_session cfg1 emptyBackend erroredState
        validToken).state.claims = some ⟨some "user_1", 9999999999, 1700000000, []⟩
    ∧ (set_clerk_session cfg1 emptyBackend erroredState
        validToken).state.user_id = (⟨some "user_1", 9999999999, 1700000000, []⟩ : JWTClaims).sub
    ∧ (set_clerk_session cfg1 emptyBackend erroredState
        validToken).state.auth_error = erroredState.auth_error :=
  C6_success_keeps_auth_error cfg1 emptyBackend erroredState validToken
    ⟨some "user_1", 9999999999, 1700000000, []⟩ (by decide) (by decide)

/-- Claim C8: with fetch-on-auth disabled, a successful verification issues
no REST call at all (in particular no user fetch), leaves `user` unchanged,
and still performs the other success effects: `is_signed_in = true`, the
claims stored, `user_id` set from `sub`. -/
theorem C8_no_fetch_when_disabled (cfg : ClerkConfig) (b : ClerkBackend)
    (s : ClerkSessionState) (t : SessionToken) (c : JWTClaims)
    (hk : cfg.jwt_public_keys_cache ≠ [])
    (hd : jwtDecode cfg.jwt_public_keys_cache t = .ok c)
    (hf : cfg.fetch_user_flag = false) :
    set_clerk_session cfg b s t =
      ⟨none,
       { s with
           is_signed_in := true,
           claims := some c,
           user_id := c.sub },
       cfg, []⟩ := by
  rw [set_clerk_session_cached cfg b s t hk, hd]
  simp [hf]

/-- Claim C8, witnessed at a concrete input. -/
theorem C8_no_fetch_when_disabled_witness :
    set_clerk_session cfg1 emptyBackend ClerkSessionState.initial validToken =
      ⟨none,
       { ClerkSessionState.initial with
           is_signed_in := true,
           claims := some ⟨some "user_1", 9999999999, 1700000000, []⟩,
           user_id := some "user_1" },
       cfg1, []⟩ :=
  C8_no_fetch_when_disabled cfg1 emptyBackend ClerkSessionState.initial
    validToken ⟨some "user_1", 9999999999, 1700000000, []⟩
    (by decide) (by decide) rfl

end ReflexClerk
